import Mathlib

/-!
Verification development for the JJ-Shop grocery-ordering application.

The definitions below are a shallow embedding of the order-lifecycle code:

* `src/src/components/owner/OrdersManagement.tsx` — owner order management
  (`updateOrderStatus`, `assignDeliveryBoy`, `changeEditedQuantity`,
  `saveEditedQuantities`, `tryMarkDeliveredWithPin`);
* the delivery dashboard (`confirmDelivery`);
* the customer checkout (`handleSubmit`) and order history (cancel/delete);
* `src/src/contexts/CartContext.tsx` — cart operations;
* the SQL migrations — row-level security policies on the `orders` table and
  the CHECK constraints on `order_items`.

Monetary amounts (`price`, `subtotal`, `total_amount`) are `decimal` columns;
they are modelled as `ℚ`.  Quantities are integers.  Caller identities and
row ids are strings; the `profiles` table is modelled as a map from a user id
to its role.
-/

namespace JJShop

/-- Order status, from the `orders.status` CHECK constraint:
`status IN ('pending', 'accepted', 'delivered', 'cancelled')`. -/
inductive OrderStatus where
  | pending
  | accepted
  | delivered
  | cancelled
deriving DecidableEq, Repr

/-- One `order_items` row: a frozen snapshot of an item variant
(name, unit, price) taken at order time. -/
structure OrderItem where
  id : String
  item_name : String
  quantity_unit : String
  quantity : Nat
  price : ℚ
  subtotal : ℚ
deriving DecidableEq, Repr

/-- One `orders` row (the fields the order lifecycle reads or writes). -/
structure Order where
  id : String
  order_number : String
  customer_id : String
  status : OrderStatus
  delivery_boy_id : Option String
  delivery_pin : Option String
  total_amount : ℚ
  order_items : List OrderItem
deriving DecidableEq, Repr

/-- Function `updateOrderStatus` (OrdersManagement.tsx lines 106–121): the owner's
status write.  The update is keyed only on the order id — there is no
precondition on the current status.  When cancelling, the payload also
clears `delivery_boy_id`. -/
def updateOrderStatus (o : Order) (s : OrderStatus) : Order :=
  if s = OrderStatus.cancelled then
    { o with status := s, delivery_boy_id := none }
  else
    { o with status := s }

/-- The customer cancel path (`confirmModalAction` in OrderHistory.tsx lines
51–74): `update { status: 'cancelled', delivery_boy_id: null }` keyed on the
order id. -/
def customerCancelOrder (o : Order) : Order :=
  { o with status := OrderStatus.cancelled, delivery_boy_id := none }

/-- Function `assignDeliveryBoy` (OrdersManagement.tsx lines 180–196): writes only
`delivery_boy_id`, keyed on the order id; no status precondition. -/
def assignDeliveryBoy (o : Order) (d : Option String) : Order :=
  { o with delivery_boy_id := d }

/-- The owner UI renders the assign-delivery control and the
"Deliver (PIN)" button inside the block guarded by
`order.status !== 'delivered'` (OrdersManagement.tsx line 486). -/
def assignControlVisible (o : Order) : Bool :=
  !(o.status == OrderStatus.delivered)

/-- Same guard, for the "Deliver (PIN)" button (OrdersManagement.tsx
lines 486 and 517–524). -/
def ownerDeliverButtonEnabled (o : Order) : Bool :=
  !(o.status == OrderStatus.delivered)

/-- Outcome of one PIN-confirmation attempt. -/
inductive PinOutcome where
  | aborted
  | pinMismatch
  | markedDelivered
deriving DecidableEq, Repr

/-- JavaScript truthiness of an optional string: `null`/`undefined` and the
empty string are falsy. -/
def strTruthy (s : Option String) : Bool :=
  match s with
  | none => false
  | some t => !(t == "")

/-- Function `tryMarkDeliveredWithPin` (OrdersManagement.tsx lines 287–296), the
owner's deliver path.  `prompt` may be cancelled (`none`); `if (!pin) return`
also drops an empty submission; `if (expectedPin && pin !== expectedPin)`
reports a mismatch; otherwise the order is written to `delivered` via
`updateOrderStatus`. -/
def tryMarkDeliveredWithPin (o : Order) (pin : Option String) : Order × PinOutcome :=
  match pin with
  | none => (o, PinOutcome.aborted)
  | some p =>
    if p == "" then (o, PinOutcome.aborted)
    else if strTruthy o.delivery_pin && !(some p == o.delivery_pin) then
      (o, PinOutcome.pinMismatch)
    else
      (updateOrderStatus o OrderStatus.delivered, PinOutcome.markedDelivered)

/-- Function `confirmDelivery` on the delivery dashboard (src/unnamed/part_005 lines
52–74), one prompt iteration: `pin === null` aborts; a submitted pin that
differs from a truthy stored pin is a mismatch (the loop re-prompts);
otherwise `update { status: 'delivered' }` is issued. -/
def confirmDelivery (o : Order) (pin : Option String) : Order × PinOutcome :=
  match pin with
  | none => (o, PinOutcome.aborted)
  | some p =>
    if strTruthy o.delivery_pin && !(some p == o.delivery_pin) then
      (o, PinOutcome.pinMismatch)
    else
      ({ o with status := OrderStatus.delivered }, PinOutcome.markedDelivered)

/-- Profile roles, from the `profiles.role` CHECK constraint after the
delivery migrations: `role IN ('owner', 'customer', 'delivery')`. -/
inductive Role where
  | owner
  | customer
  | delivery
deriving DecidableEq, Repr

/-- The `profiles` table, as a map from a user id to that profile's role
(roles are fixed at creation). -/
def Profiles := String → Role

/-- The owner test `EXISTS (SELECT 1 FROM profiles WHERE profiles.id = auth.uid() AND
profiles.role = 'owner')`, the owner test used by several policies. -/
def isOwner (pf : Profiles) (uid : String) : Bool :=
  pf uid == Role.owner

/-- Policies "Customers can view own orders" (schema migration) and
"customers_select_own" (delivery playbook): `USING (customer_id = auth.uid())`. -/
def policyCustomersSelectOwn (uid : String) (o : Order) : Bool :=
  o.customer_id == uid

/-- Policies "Owners can view all orders" and "owners_select_all":
`USING` the owner test. -/
def policyOwnersSelectAll (pf : Profiles) (uid : String) : Bool :=
  isOwner pf uid

/-- Policy "delivery_select_assigned" (delivery playbook):
`USING (delivery_boy_id = auth.uid() AND status = 'accepted')`. -/
def policyDeliverySelectAssigned (uid : String) (o : Order) : Bool :=
  o.delivery_boy_id == some uid && o.status == OrderStatus.accepted

/-- Policy "Delivery can view assigned orders"
(20251014_allow_delivery_policies.sql): `USING (delivery_boy_id = auth.uid())`. -/
def policyDeliveryViewAssigned (uid : String) (o : Order) : Bool :=
  o.delivery_boy_id == some uid

/-- Row visibility on `orders`: the OR of the permissive SELECT policies. -/
def canSelectOrder (pf : Profiles) (uid : String) (o : Order) : Bool :=
  policyCustomersSelectOwn uid o || policyOwnersSelectAll pf uid ||
    policyDeliverySelectAssigned uid o || policyDeliveryViewAssigned uid o

/-- Policy "customers_update_pending", `USING` part:
`customer_id = auth.uid() AND status = 'pending'`. -/
def policyCustomersUpdatePendingUsing (uid : String) (o : Order) : Bool :=
  o.customer_id == uid && o.status == OrderStatus.pending

/-- Policy "customers_update_pending", `WITH CHECK` part:
`customer_id = auth.uid() AND status IN ('pending','cancelled')`. -/
def policyCustomersUpdatePendingCheck (uid : String) (n : Order) : Bool :=
  n.customer_id == uid &&
    (n.status == OrderStatus.pending || n.status == OrderStatus.cancelled)

/-- Policies "Owners can update order status" and "owners_update": both the
`USING` and the `WITH CHECK` sides reduce to the owner test — neither side
constrains the order's status. -/
def policyOwnersUpdate (pf : Profiles) (uid : String) : Bool :=
  isOwner pf uid

/-- Policy "delivery_update_mark_delivered" (schema migration), `USING` part:
`delivery_boy_id = auth.uid() AND status = 'accepted'`. -/
def policyDeliveryMarkDeliveredUsing (uid : String) (o : Order) : Bool :=
  o.delivery_boy_id == some uid && o.status == OrderStatus.accepted

/-- Policy "delivery_update_mark_delivered", `WITH CHECK` part:
`delivery_boy_id = auth.uid() AND status IN ('accepted','delivered')`. -/
def policyDeliveryMarkDeliveredCheck (uid : String) (n : Order) : Bool :=
  n.delivery_boy_id == some uid &&
    (n.status == OrderStatus.accepted || n.status == OrderStatus.delivered)

/-- Policy "Delivery can mark delivered"
(20251014_allow_delivery_policies.sql), `USING` part:
`delivery_boy_id = auth.uid()` (any status). -/
def policyDeliveryMarkDelivered2Using (uid : String) (o : Order) : Bool :=
  o.delivery_boy_id == some uid

/-- Policy "Delivery can mark delivered", `WITH CHECK` part:
`delivery_boy_id = auth.uid() AND status = 'delivered'`. -/
def policyDeliveryMarkDelivered2Check (uid : String) (n : Order) : Bool :=
  n.delivery_boy_id == some uid && n.status == OrderStatus.delivered

/-- Updatability on `orders` under permissive policies: the old row must
pass some `USING` clause and the new row some `WITH CHECK` clause. -/
def canUpdateOrder (pf : Profiles) (uid : String) (o n : Order) : Bool :=
  (policyCustomersUpdatePendingUsing uid o || policyOwnersUpdate pf uid ||
      policyDeliveryMarkDeliveredUsing uid o || policyDeliveryMarkDelivered2Using uid o) &&
  (policyCustomersUpdatePendingCheck uid n || policyOwnersUpdate pf uid ||
      policyDeliveryMarkDeliveredCheck uid n || policyDeliveryMarkDelivered2Check uid n)

/-- Policy "customers_delete_pending", the only DELETE policy on `orders`:
`USING (customer_id = auth.uid() AND status IN ('pending','cancelled'))`. -/
def canDeleteOrder (uid : String) (o : Order) : Bool :=
  o.customer_id == uid &&
    (o.status == OrderStatus.pending || o.status == OrderStatus.cancelled)

/-- Result of a status write as seen by the caller. -/
inductive WriteOutcome where
  | ok
  | rejected
deriving DecidableEq, Repr

/-- An owner status write submitted through the row-level policies: the
patch computed by `updateOrderStatus` is applied when the policies accept
it, otherwise the row is left unchanged and the write is rejected. -/
def ownerWriteStatus (pf : Profiles) (uid : String) (o : Order) (s : OrderStatus) :
    Order × WriteOutcome :=
  let n := updateOrderStatus o s
  if canUpdateOrder pf uid o n then (n, WriteOutcome.ok) else (o, WriteOutcome.rejected)

/-- Example profiles map: one customer, two delivery users, everyone else
an owner. -/
def pfEx : Profiles := fun u =>
  if u == "c1" then Role.customer
  else if u == "d1" || u == "d3" then Role.delivery
  else Role.owner

/-- Example profiles map in which every caller is the owner. -/
def pfOwnerEx : Profiles := fun _ => Role.owner

/-- Example order used by the C8 witness: belongs to customer `c2`,
assigned to delivery user `d1`. -/
def oEx8 : Order :=
  { id := "o8"
    order_number := "ORD8"
    customer_id := "c2"
    status := OrderStatus.accepted
    delivery_boy_id := some ("d1")
    delivery_pin := none
    total_amount := 0
    order_items := [] }

/-- Example pending order used by the C3 theorems. -/
def oPendEx : Order :=
  { id := "o3"
    order_number := "ORD3"
    customer_id := "c1"
    status := OrderStatus.pending
    delivery_boy_id := none
    delivery_pin := some ("111111")
    total_amount := 10
    order_items := [] }

/-- Example pending order used by the C4 theorems. -/
def oPend4 : Order :=
  { id := "o4"
    order_number := "ORD4"
    customer_id := "c1"
    status := OrderStatus.pending
    delivery_boy_id := none
    delivery_pin := some ("654321")
    total_amount := 20
    order_items := [] }

/-- Example pending unassigned order used by the C6 theorems. -/
def oPend6 : Order :=
  { id := "o6"
    order_number := "ORD6"
    customer_id := "c1"
    status := OrderStatus.pending
    delivery_boy_id := none
    delivery_pin := some ("222222")
    total_amount := 30
    order_items := [] }

/-- Example accepted order with a stored PIN, used by the C2 witness. -/
def oEx2 : Order :=
  { id := "o2"
    order_number := "ORD2"
    customer_id := "c1"
    status := OrderStatus.accepted
    delivery_boy_id := some ("d1")
    delivery_pin := some ("123456")
    total_amount := 40
    order_items := [] }

/-- C2: `confirmDelivery` on the delivery dashboard.  With a stored
(nonempty, as generated) `delivery_pin`, a submitted pin that differs under
string equality yields a PIN mismatch and leaves the order unchanged; a
submitted pin equal to the stored pin transitions the order to `delivered`;
and with no stored PIN the transition proceeds without any PIN check. -/
theorem confirm_delivery_pin_check (o : Order) (p : String) :
    (∀ e, o.delivery_pin = some e → e ≠ "" →
      (p ≠ e → confirmDelivery o (some p) = (o, PinOutcome.pinMismatch)) ∧
      (p = e → confirmDelivery o (some p) =
        ({ o with status := OrderStatus.delivered }, PinOutcome.markedDelivered))) ∧
    (o.delivery_pin = none → confirmDelivery o (some p) =
      ({ o with status := OrderStatus.delivered }, PinOutcome.markedDelivered)) := by
  constructor
  · intro e he hne
    constructor
    · intro hpe
      simp [confirmDelivery, strTruthy, he, hne, hpe]
    · intro hpe
      subst hpe
      simp [confirmDelivery, strTruthy, he]
  · intro he
    simp [confirmDelivery, strTruthy, he]

/-- C2 witness: on a concrete order with stored PIN `123456`, submitting
`000000` is a mismatch that leaves the order unchanged, and submitting
`123456` marks the order delivered. -/
theorem confirm_delivery_pin_check_witness :
    confirmDelivery oEx2 (some ("000000")) = (oEx2, PinOutcome.pinMismatch) ∧
    confirmDelivery oEx2 (some ("123456")) =
      ({ oEx2 with status := OrderStatus.delivered }, PinOutcome.markedDelivered) :=
  ⟨((confirm_delivery_pin_check oEx2 ("000000")).1 ("123456") rfl (by decide)).1 (by decide),
   ((confirm_delivery_pin_check oEx2 ("123456")).1 ("123456") rfl (by decide)).2 rfl⟩

/-- C3 counterexample: the owner's status write is keyed only on the order
id and the caller's role, so issuing `acceptOrder` a second time on an
already-accepted order returns `ok` — it is a blind overwrite that
succeeds, not a conditional update that fails with an
`InvalidStateTransition`-style rejection. -/
theorem accept_twice_second_call_succeeds :
    (ownerWriteStatus pfOwnerEx ("own1")
        ((ownerWriteStatus pfOwnerEx ("own1") oPendEx OrderStatus.accepted).1)
        OrderStatus.accepted).2 = WriteOutcome.ok ∧
    (ownerWriteStatus pfOwnerEx ("own1")
        ((ownerWriteStatus pfOwnerEx ("own1") oPendEx OrderStatus.accepted).1)
        OrderStatus.accepted).1 =
      (ownerWriteStatus pfOwnerEx ("own1") oPendEx OrderStatus.accepted).1 := by
  decide

/-- C3 amended: calling `acceptOrder` twice yields exactly one state change
— the first call transitions pending to accepted, and the second call
succeeds (`ok`) as a blind overwrite that rewrites `accepted` and leaves
the order unchanged; no status-keyed conditional update exists. -/
theorem accept_is_blind_overwrite (pf : Profiles) (uid : String) (o : Order)
    (hrole : pf uid = Role.owner) (hstatus : o.status = OrderStatus.pending) :
    (ownerWriteStatus pf uid o OrderStatus.accepted).2 = WriteOutcome.ok ∧
    (ownerWriteStatus pf uid o OrderStatus.accepted).1.status = OrderStatus.accepted ∧
    (ownerWriteStatus pf uid o OrderStatus.accepted).1.status ≠ o.status ∧
    ownerWriteStatus pf uid
        ((ownerWriteStatus pf uid o OrderStatus.accepted).1) OrderStatus.accepted =
      ((ownerWriteStatus pf uid o OrderStatus.accepted).1, WriteOutcome.ok) := by
  simp [ownerWriteStatus, canUpdateOrder, policyOwnersUpdate, isOwner, hrole,
    updateOrderStatus, hstatus]

/-- C3 amended witness: the two accept writes on a concrete pending order. -/
theorem accept_is_blind_overwrite_witness :
    (ownerWriteStatus pfOwnerEx ("own1") oPendEx OrderStatus.accepted).2 = WriteOutcome.ok ∧
    (ownerWriteStatus pfOwnerEx ("own1") oPendEx OrderStatus.accepted).1.status =
      OrderStatus.accepted ∧
    (ownerWriteStatus pfOwnerEx ("own1") oPendEx OrderStatus.accepted).1.status ≠
      oPendEx.status ∧
    ownerWriteStatus pfOwnerEx ("own1")
        ((ownerWriteStatus pfOwnerEx ("own1") oPendEx OrderStatus.accepted).1)
        OrderStatus.accepted =
      ((ownerWriteStatus pfOwnerEx ("own1") oPendEx OrderStatus.accepted).1,
        WriteOutcome.ok) :=
  accept_is_blind_overwrite pfOwnerEx ("own1") oPendEx rfl rfl

/-- C4 counterexample: the "Deliver (PIN)" button is rendered for every
order whose status is not `delivered`, and a matching PIN then writes
`delivered` unconditionally — so a pending order transitions directly to
`delivered`, contradicting the claim that the transition is enabled only
from `accepted`. -/
theorem pending_order_marked_delivered_directly :
    ownerDeliverButtonEnabled oPend4 = true ∧
    oPend4.status = OrderStatus.pending ∧
    (tryMarkDeliveredWithPin oPend4 (some ("654321"))).1.status = OrderStatus.delivered := by
  decide

/-- C4 amended: the owner's deliver-with-PIN path is enabled whenever the
order is not already `delivered`; with the stored PIN submitted it marks
the order delivered from any such status — including directly from
`pending` or `cancelled`. -/
theorem mark_delivered_enabled_unless_delivered (o : Order) (p : String)
    (hstatus : o.status ≠ OrderStatus.delivered)
    (hpin : o.delivery_pin = some p) (hp : p ≠ "") :
    ownerDeliverButtonEnabled o = true ∧
    (tryMarkDeliveredWithPin o (some p)).1.status = OrderStatus.delivered ∧
    (tryMarkDeliveredWithPin o (some p)).2 = PinOutcome.markedDelivered := by
  refine ⟨?_, ?_, ?_⟩ <;>
    simp [ownerDeliverButtonEnabled, tryMarkDeliveredWithPin, strTruthy,
      updateOrderStatus, hpin, hp, hstatus]

/-- C4 amended witness: the deliver path applied to a concrete pending
order with its stored PIN. -/
theorem mark_delivered_enabled_unless_delivered_witness :
    ownerDeliverButtonEnabled oPend4 = true ∧
    (tryMarkDeliveredWithPin oPend4 (some ("654321"))).1.status = OrderStatus.delivered ∧
    (tryMarkDeliveredWithPin oPend4 (some ("654321"))).2 = PinOutcome.markedDelivered :=
  mark_delivered_enabled_unless_delivered oPend4 ("654321") (by decide) rfl (by decide)

/-- C6 counterexample: `assignDeliveryBoy` has no status precondition and
the assign control is offered for every non-delivered order, so assigning a
delivery person to a pending order produces a reachable state in which
`delivery_boy_id` is non-null while the status is neither `accepted` nor
`delivered`. -/
theorem assignment_allowed_while_pending :
    assignControlVisible oPend6 = true ∧
    (assignDeliveryBoy oPend6 (some ("d9"))).delivery_boy_id = some ("d9") ∧
    (assignDeliveryBoy oPend6 (some ("d9"))).status = OrderStatus.pending ∧
    ¬((assignDeliveryBoy oPend6 (some ("d9"))).status = OrderStatus.accepted ∨
      (assignDeliveryBoy oPend6 (some ("d9"))).status = OrderStatus.delivered) := by
  decide

/-- C6 amended: assignment is offered for any order that is not yet
delivered, sets `delivery_boy_id`, and leaves the status unchanged — so
`delivery_boy_id` can be non-null in any non-delivered status; cancellation
does clear `delivery_boy_id`. -/
theorem assign_sets_delivery_boy_preserves_status (o : Order) (d : String)
    (hvis : assignControlVisible o = true) :
    o.status ≠ OrderStatus.delivered ∧
    (assignDeliveryBoy o (some d)).delivery_boy_id = some d ∧
    (assignDeliveryBoy o (some d)).status = o.status ∧
    (updateOrderStatus o OrderStatus.cancelled).delivery_boy_id = none := by
  simp only [assignControlVisible, Bool.not_eq_true', beq_eq_false_iff_ne] at hvis
  simp [assignDeliveryBoy, updateOrderStatus, hvis]

/-- C6 amended witness: assignment on a concrete pending order. -/
theorem assign_sets_delivery_boy_preserves_status_witness :
    oPend6.status ≠ OrderStatus.delivered ∧
    (assignDeliveryBoy oPend6 (some ("d9"))).delivery_boy_id = some ("d9") ∧
    (assignDeliveryBoy oPend6 (some ("d9"))).status = oPend6.status ∧
    (updateOrderStatus oPend6 OrderStatus.cancelled).delivery_boy_id = none :=
  assign_sets_delivery_boy_preserves_status oPend6 ("d9") rfl

/-- C8: under the row-level policies on `orders`, a customer can neither
see, update (cancel), nor delete an order whose `customer_id` is not their
identity (given that assigned delivery ids belong to delivery-role
profiles), and a delivery user can neither see nor update an order that is
not assigned to them and not their own purchase. -/
theorem row_level_isolation (pf : Profiles) (uid : String) (o : Order) :
    (pf uid = Role.customer →
      o.customer_id ≠ uid →
      (∀ d, o.delivery_boy_id = some d → pf d = Role.delivery) →
      canSelectOrder pf uid o = false ∧
        (∀ n, canUpdateOrder pf uid o n = false) ∧
        canDeleteOrder uid o = false) ∧
    (pf uid = Role.delivery →
      o.customer_id ≠ uid →
      o.delivery_boy_id ≠ some uid →
      canSelectOrder pf uid o = false ∧
        (∀ n, canUpdateOrder pf uid o n = false)) := by
  constructor
  · intro hrole hne hinv
    have hd' : o.delivery_boy_id ≠ some uid := by
      intro hcontra
      have hdeliv := hinv uid hcontra
      rw [hrole] at hdeliv
      exact absurd hdeliv (by decide)
    refine ⟨?_, ?_, ?_⟩
    · simp [canSelectOrder, policyCustomersSelectOwn, policyOwnersSelectAll,
        policyDeliverySelectAssigned, policyDeliveryViewAssigned, isOwner,
        hrole, hne, hd']
    · intro n
      simp [canUpdateOrder, policyCustomersUpdatePendingUsing, policyOwnersUpdate,
        policyDeliveryMarkDeliveredUsing, policyDeliveryMarkDelivered2Using,
        isOwner, hrole, hne, hd']
    · simp [canDeleteOrder, hne]
  · intro hrole hne hd'
    refine ⟨?_, ?_⟩
    · simp [canSelectOrder, policyCustomersSelectOwn, policyOwnersSelectAll,
        policyDeliverySelectAssigned, policyDeliveryViewAssigned, isOwner,
        hrole, hne, hd']
    · intro n
      simp [canUpdateOrder, policyCustomersUpdatePendingUsing, policyOwnersUpdate,
        policyDeliveryMarkDeliveredUsing, policyDeliveryMarkDelivered2Using,
        isOwner, hrole, hne, hd']

/-- C8 witness: customer `c1` can neither see nor delete an order of
customer `c2` assigned to delivery user `d1`, and delivery user `d3` cannot
see that order either. -/
theorem row_level_isolation_witness :
    canSelectOrder pfEx ("c1") oEx8 = false ∧
    canDeleteOrder ("c1") oEx8 = false ∧
    canSelectOrder pfEx ("d3") oEx8 = false := by
  have hc := (row_level_isolation pfEx ("c1") oEx8).1 (by decide) (by decide)
    (by
      intro d hd
      have h : ("d1" : String) = d := by injection hd
      subst h
      decide)
  have hdel := (row_level_isolation pfEx ("d3") oEx8).2 (by decide) (by decide) (by decide)
  exact ⟨hc.1, hc.2.2, hdel.1⟩

/-- Function `changeEditedQuantity` (OrdersManagement.tsx lines 214–216):
an edited quantity is stored as `Math.max(0, Math.floor(value))` — clamped
to a non-negative integer, with zero allowed. -/
def changeEditedQuantity (value : Int) : Nat :=
  value.toNat

/-- The quantity a line receives on save (OrdersManagement.tsx line 226):
`editedQuantities[it.id] ?? it.quantity`. -/
def finalQty (edited : String → Option Nat) (it : OrderItem) : Nat :=
  (edited it.id).getD it.quantity

/-- One recomputed `order_items` row (OrdersManagement.tsx lines 229–230):
the new quantity and `subtotal = finalQty * it.price`; the frozen price is
untouched. -/
def recomputeItem (edited : String → Option Nat) (it : OrderItem) : OrderItem :=
  { it with
    quantity := finalQty edited it
    subtotal := (finalQty edited it : ℚ) * it.price }

/-- The accumulated `newTotal` (OrdersManagement.tsx line 231): the sum of
the recomputed subtotals over all lines of the order. -/
def newTotal (edited : String → Option Nat) (items : List OrderItem) : ℚ :=
  (items.map (fun it => ((finalQty edited it : ℚ)) * it.price)).sum

/-- The row-update loop of `saveEditedQuantities` (OrdersManagement.tsx
lines 238–241): each `order_items` row is written in turn; the database
CHECK constraint `quantity > 0` (order_items DDL) rejects a zero quantity,
which throws and aborts the loop, leaving that row and the following rows
unchanged.  Returns the resulting rows and whether every write succeeded. -/
def applyRowUpdates (edited : String → Option Nat) :
    List OrderItem → List OrderItem × Bool
  | [] => ([], true)
  | it :: rest =>
    if 0 < finalQty edited it then
      let r := applyRowUpdates edited rest
      (recomputeItem edited it :: r.1, r.2)
    else
      (it :: rest, false)

/-- Function `saveEditedQuantities` (OrdersManagement.tsx lines 218–284):
update each line, then — only when every row write succeeded — write
`total_amount := newTotal` on the order.  The second component reports
success. -/
def saveEditedQuantities (o : Order) (edited : String → Option Nat) :
    Order × Bool :=
  let r := applyRowUpdates edited o.order_items
  if r.2 then
    ({ o with order_items := r.1, total_amount := newTotal edited o.order_items }, true)
  else
    ({ o with order_items := r.1 }, false)

/-- One cart line (`CartItem` in lib/supabase: nested `item`, `variant` and
a quantity; flattened here to the fields the cart logic reads). -/
structure CartItem where
  item_id : String
  variant_id : String
  item_name : String
  quantity_unit : String
  price : ℚ
  quantity : Nat
deriving DecidableEq, Repr

/-- The duplicate-line test used throughout CartContext.tsx:
`item.item.id === itemId && item.variant.id === variantId`. -/
def sameLine (l : CartItem) (itemId variantId : String) : Bool :=
  l.item_id == itemId && l.variant_id == variantId

/-- Function `addToCart` (CartContext.tsx lines 26–45): when a line with
the same (item id, variant id) pair exists, its quantity is increased by
the new quantity; otherwise the new line is appended. -/
def addToCart (cart : List CartItem) (n : CartItem) : List CartItem :=
  if cart.any (fun l => sameLine l n.item_id n.variant_id) then
    cart.map (fun l =>
      if sameLine l n.item_id n.variant_id then
        { l with quantity := l.quantity + n.quantity }
      else l)
  else
    cart ++ [n]

/-- Function `removeFromCart` (CartContext.tsx lines 47–53): filters the
matching line out. -/
def removeFromCart (cart : List CartItem) (itemId variantId : String) :
    List CartItem :=
  cart.filter (fun l => !(sameLine l itemId variantId))

/-- Function `updateQuantity` (CartContext.tsx lines 55–68): a quantity
`<= 0` removes the line entirely; otherwise the matching line's quantity is
replaced. -/
def updateQuantity (cart : List CartItem) (itemId variantId : String)
    (q : Int) : List CartItem :=
  if q ≤ 0 then removeFromCart cart itemId variantId
  else
    cart.map (fun l =>
      if sameLine l itemId variantId then { l with quantity := q.toNat } else l)

/-- Function `clearCart` (CartContext.tsx lines 70–72). -/
def clearCart : List CartItem := []

/-- Function `totalAmount` (CartContext.tsx lines 74–77):
`cart.reduce((sum, item) => sum + item.variant.price * item.quantity, 0)`. -/
def cartTotal (cart : List CartItem) : ℚ :=
  (cart.map (fun l => l.price * (l.quantity : ℚ))).sum

/-- One cart manipulation, as offered by the cart context. -/
inductive CartOp where
  | add (n : CartItem)
  | remove (itemId variantId : String)
  | update (itemId variantId : String) (q : Int)
  | clear
deriving Repr

/-- Apply one cart operation. -/
def applyCartOp (cart : List CartItem) : CartOp → List CartItem
  | CartOp.add n => addToCart cart n
  | CartOp.remove i v => removeFromCart cart i v
  | CartOp.update i v q => updateQuantity cart i v q
  | CartOp.clear => clearCart

/-- Run a sequence of cart operations from the empty cart. -/
def runCart (ops : List CartOp) : List CartItem :=
  ops.foldl applyCartOp []

/-- Whether an operation only adds positive quantities.  The single
`addToCart` call site (ItemsList.tsx line 28) passes
`quantities[item.id] || 1`, which is at least 1. -/
def addQtyPos : CartOp → Bool
  | CartOp.add n => decide (0 < n.quantity)
  | _ => true

/-- The cart invariant: no two lines share the (item id, variant id) pair,
and every stored line has positive quantity. -/
def CartInv (cart : List CartItem) : Prop :=
  cart.Pairwise (fun a b => a.item_id ≠ b.item_id ∨ a.variant_id ≠ b.variant_id) ∧
    ∀ l ∈ cart, 0 < l.quantity

/-- One snapshotted order line built at checkout (src/unnamed/part_004
lines 102–111): name, unit and price frozen from the variant,
`subtotal: item.variant.price * item.quantity`. -/
def snapshotLine (l : CartItem) : OrderItem :=
  { id := ""
    item_name := l.item_name
    quantity_unit := l.quantity_unit
    quantity := l.quantity
    price := l.price
    subtotal := l.price * (l.quantity : ℚ) }

/-- JavaScript `String.prototype.trim`: strips leading and trailing
whitespace (modelled over the character list so that it evaluates). -/
def jsTrim (s : String) : String :=
  String.mk (((s.data.dropWhile Char.isWhitespace).reverse.dropWhile
    Char.isWhitespace).reverse)

/-- The reasons `handleSubmit` rejects a checkout before inserting
anything. -/
inductive CheckoutError where
  | notLoggedIn
  | missingVillage
  | missingStreet
  | missingPinCode
deriving DecidableEq, Repr

/-- Function `handleSubmit` of the checkout (src/unnamed/part_004 lines
31–148).  It rejects when no user is logged in or when the village, street
or PIN-code field is blank (`!field.trim()`); there is no check on the
cart.  Otherwise it inserts an order with a timestamp order number
(`ORD${Date.now()}`, here `now`), a generated 6-digit delivery PIN
(`Math.floor(100000 + Math.random() * 900000)`, here seeded by `rand`),
status `pending`, the cart total, and one snapshotted line per cart line. -/
def checkoutSubmit (user : Option String) (cart : List CartItem)
    (street village pinCode : String) (now rand : Nat) :
    Except CheckoutError Order :=
  match user with
  | none => Except.error CheckoutError.notLoggedIn
  | some uid =>
    if jsTrim village == "" then Except.error CheckoutError.missingVillage
    else if jsTrim street == "" then Except.error CheckoutError.missingStreet
    else if jsTrim pinCode == "" then Except.error CheckoutError.missingPinCode
    else
      Except.ok
        { id := ""
          order_number := "ORD" ++ Nat.repr now
          customer_id := uid
          status := OrderStatus.pending
          delivery_boy_id := none
          delivery_pin := some (Nat.repr (100000 + rand % 900000))
          total_amount := cartTotal cart
          order_items := cart.map snapshotLine }

/-- A successful row-update loop requires every final quantity to pass the
`quantity > 0` CHECK. -/
theorem applyRowUpdates_ok_iff (edited : String → Option Nat)
    (items : List OrderItem) :
    (applyRowUpdates edited items).2 = true ↔
      ∀ it ∈ items, 0 < finalQty edited it := by
  induction items with
  | nil => simp [applyRowUpdates]
  | cons it rest ih =>
    by_cases hq : 0 < finalQty edited it
    · simp [applyRowUpdates, hq, ih]
    · simp [applyRowUpdates, hq]

/-- When every row write succeeds, the loop recomputes every row. -/
theorem applyRowUpdates_eq_map_of_ok (edited : String → Option Nat)
    (items : List OrderItem)
    (h : (applyRowUpdates edited items).2 = true) :
    (applyRowUpdates edited items).1 = items.map (recomputeItem edited) := by
  induction items with
  | nil => simp [applyRowUpdates]
  | cons it rest ih =>
    by_cases hq : 0 < finalQty edited it
    · simp only [applyRowUpdates, if_pos hq] at h ⊢
      simp [ih h]
    · simp [applyRowUpdates, hq] at h

/-- C1 example order: two lines, quantity 2 at price 50 and quantity 1 at
price 30, total 130. -/
def itemEx1 : OrderItem :=
  { id := "L1"
    item_name := "Rice"
    quantity_unit := "1 kg"
    quantity := 2
    price := 50
    subtotal := 100 }

/-- Second example line. -/
def itemEx2 : OrderItem :=
  { id := "L2"
    item_name := "Oil"
    quantity_unit := "1 L"
    quantity := 1
    price := 30
    subtotal := 30 }

/-- C1 example order. -/
def oEx1 : Order :=
  { id := "oc1"
    order_number := "ORD100"
    customer_id := "c1"
    status := OrderStatus.pending
    delivery_boy_id := none
    delivery_pin := some ("333333")
    total_amount := 130
    order_items := [itemEx1, itemEx2] }

/-- C1 example edit: set line `L1` to quantity 3. -/
def editedEx1 : String → Option Nat := fun s =>
  if s == "L1" then some 3 else none

/-- The order produced by the C1 example edit: total 180. -/
def oEx1' : Order :=
  { oEx1 with
    total_amount := 180
    order_items :=
      [{ itemEx1 with quantity := 3, subtotal := 150 },
        { itemEx2 with quantity := 1, subtotal := 30 }] }

/-- C1: after every successful `saveEditedQuantities`, each line's subtotal
is the (possibly new) quantity times the line's frozen price, the stored
quantities are exactly the requested final quantities, and the order's
`total_amount` equals the sum of the subtotals of all its lines. -/
theorem edit_quantities_recomputes_totals (o : Order)
    (edited : String → Option Nat) (o' : Order)
    (h : saveEditedQuantities o edited = (o', true)) :
    o'.total_amount = (o'.order_items.map OrderItem.subtotal).sum ∧
    o'.order_items.map OrderItem.price = o.order_items.map OrderItem.price ∧
    o'.order_items.map OrderItem.quantity = o.order_items.map (finalQty edited) ∧
    ∀ it ∈ o'.order_items, it.subtotal = (it.quantity : ℚ) * it.price := by
  by_cases hok : (applyRowUpdates edited o.order_items).2 = true
  · simp only [saveEditedQuantities, hok, if_true, Prod.mk.injEq, and_true] at h
    subst h
    have hmap := applyRowUpdates_eq_map_of_ok edited o.order_items hok
    refine ⟨?_, ?_, ?_, ?_⟩
    · simp only [hmap, newTotal, List.map_map]
      rfl
    · simp [hmap, List.map_map, Function.comp, recomputeItem]
    · simp [hmap, List.map_map, Function.comp, recomputeItem]
    · intro it hit
      simp only [hmap, List.mem_map] at hit
      obtain ⟨a, _, rfl⟩ := hit
      simp [recomputeItem]
  · simp [saveEditedQuantities, hok] at h

/-- C1 witness: the claim's own example.  Editing the first line (qty 2 at
price 50) to quantity 3 recomputes its subtotal to 150 and the order total
from 130 to 180, the sum of all line subtotals. -/
theorem edit_quantities_recomputes_totals_witness :
    saveEditedQuantities oEx1 editedEx1 = (oEx1', true) ∧
    oEx1'.total_amount = (oEx1'.order_items.map OrderItem.subtotal).sum ∧
    oEx1'.total_amount = 180 := by
  have hsave : saveEditedQuantities oEx1 editedEx1 = (oEx1', true) := by
    simp [saveEditedQuantities, applyRowUpdates, oEx1, oEx1', editedEx1,
      itemEx1, itemEx2, finalQty, recomputeItem, newTotal]
    norm_num
  exact ⟨hsave,
    (edit_quantities_recomputes_totals oEx1 editedEx1 oEx1' hsave).1,
    rfl⟩

/-- C7 counterexample: submitting the checkout with an empty cart and valid
address fields is not rejected — an order row is created, with status
`pending`, zero lines and total 0.  `handleSubmit` never checks the cart. -/
theorem empty_cart_checkout_succeeds :
    checkoutSubmit (some ("u1")) [] ("Main Road") ("Nuapada") ("752001") 1 0 =
      Except.ok
        { id := ""
          order_number := "ORD1"
          customer_id := "u1"
          status := OrderStatus.pending
          delivery_boy_id := none
          delivery_pin := some ("100000")
          total_amount := 0
          order_items := [] } := by
  rfl

/-- C7 amended: checkout is rejected, with no order row created, exactly
when no user is logged in or a required address field (street, village,
PIN code) is blank; the empty cart is not checked.  A successful submission
creates an order with status `pending`, order number `ORD` plus the
timestamp, a generated six-digit delivery PIN, one snapshotted line per
cart line, and `total_amount` equal to the cart total. -/
theorem checkout_validation (user : Option String) (cart : List CartItem)
    (street village pinCode : String) (now rand : Nat) :
    ((∃ o', checkoutSubmit user cart street village pinCode now rand =
        Except.ok o') ↔
      (user.isSome = true ∧ jsTrim village ≠ "" ∧ jsTrim street ≠ "" ∧
        jsTrim pinCode ≠ "")) ∧
    (∀ o', checkoutSubmit user cart street village pinCode now rand =
        Except.ok o' →
      o'.status = OrderStatus.pending ∧
      o'.order_number = "ORD" ++ Nat.repr now ∧
      o'.total_amount = cartTotal cart ∧
      o'.order_items = cart.map snapshotLine ∧
      ∃ n, o'.delivery_pin = some (Nat.repr n) ∧ 100000 ≤ n ∧ n < 1000000) := by
  constructor
  · cases user with
    | none => simp [checkoutSubmit]
    | some uid =>
      by_cases hv : jsTrim village = "" <;> by_cases hs : jsTrim street = "" <;>
        by_cases hp : jsTrim pinCode = "" <;>
          simp [checkoutSubmit, hv, hs, hp]
  · intro o' h
    cases user with
    | none => simp [checkoutSubmit] at h
    | some uid =>
      by_cases hv : jsTrim village = "" <;> by_cases hs : jsTrim street = "" <;>
        by_cases hp : jsTrim pinCode = "" <;>
          simp [checkoutSubmit, hv, hs, hp] at h
      subst h
      refine ⟨rfl, rfl, rfl, rfl, 100000 + rand % 900000, rfl, ?_, ?_⟩
      · exact Nat.le_add_right _ _
      · have hlt : rand % 900000 < 900000 := Nat.mod_lt _ (by norm_num)
        omega

/-- C7 amended witness: a concrete successful submission with one cart
line, and a concrete rejected submission with a blank street field. -/
theorem checkout_validation_witness :
    (∃ o', checkoutSubmit (some ("u1"))
        [{ item_id := "i1", variant_id := "v1", item_name := "Rice",
           quantity_unit := "1 kg", price := 50, quantity := 2 }]
        ("Main Road") ("Nuapada") ("752001") 7 5 = Except.ok o') ∧
    ¬∃ o', checkoutSubmit (some ("u1")) [] ("") ("Nuapada") ("752001") 7 5 =
      Except.ok o' := by
  constructor
  · exact (checkout_validation (some ("u1"))
      [{ item_id := "i1", variant_id := "v1", item_name := "Rice",
         quantity_unit := "1 kg", price := 50, quantity := 2 }]
      ("Main Road") ("Nuapada") ("752001") 7 5).1.mpr
      ⟨rfl, by decide, by decide, by decide⟩
  · intro hcontra
    have h := (checkout_validation (some ("u1")) [] ("") ("Nuapada")
      ("752001") 7 5).1.mp hcontra
    exact absurd h.2.2.1 (by decide)

/-- The per-line invariant of C9: positive quantity and
`subtotal = price × quantity`. -/
def ItemInv (it : OrderItem) : Prop :=
  0 < it.quantity ∧ it.subtotal = it.price * (it.quantity : ℚ)

/-- The row-update loop never commits a row that breaks the per-line
invariant: rows it rewrites get a positive quantity and a recomputed
subtotal, and rows it leaves alone (after a CHECK violation aborts the
loop) keep their old, valid values. -/
theorem applyRowUpdates_preserves_inv (edited : String → Option Nat)
    (items : List OrderItem)
    (hinv : ∀ it ∈ items, ItemInv it) :
    ∀ it ∈ (applyRowUpdates edited items).1, ItemInv it := by
  induction items with
  | nil => simp [applyRowUpdates]
  | cons it rest ih =>
    intro it' hit'
    by_cases hq : 0 < finalQty edited it
    · simp only [applyRowUpdates, if_pos hq, List.mem_cons] at hit'
      rcases hit' with h | h
      · subst h
        exact ⟨hq, by simp [recomputeItem, mul_comm]⟩
      · exact ih (fun a ha => hinv a (List.mem_cons_of_mem _ ha)) it' h
    · simp only [applyRowUpdates, if_neg hq] at hit'
      exact hinv it' hit'

/-- C9: quantity edits are clamped to non-negative integers; a save that
requests a zero quantity is rejected by the `quantity > 0` CHECK; every
line of an order with valid lines still satisfies `quantity > 0` and
`subtotal = price × quantity` after any save attempt; and order creation
snapshots lines that satisfy the same invariant whenever the cart lines
have positive quantities. -/
theorem order_item_invariant :
    (∀ v : Int, v ≤ 0 → changeEditedQuantity v = 0) ∧
    (∀ (o : Order) (edited : String → Option Nat),
      (∃ it ∈ o.order_items, finalQty edited it = 0) →
      (saveEditedQuantities o edited).2 = false) ∧
    (∀ (o : Order) (edited : String → Option Nat),
      (∀ it ∈ o.order_items, ItemInv it) →
      ∀ it ∈ (saveEditedQuantities o edited).1.order_items, ItemInv it) ∧
    (∀ (user : Option String) (cart : List CartItem)
        (street village pinCode : String) (now rand : Nat) (o' : Order),
      checkoutSubmit user cart street village pinCode now rand = Except.ok o' →
      (∀ l ∈ cart, 0 < l.quantity) →
      ∀ it ∈ o'.order_items, ItemInv it) := by
  refine ⟨?_, ?_, ?_, ?_⟩
  · intro v hv
    simp [changeEditedQuantity, Int.toNat_of_nonpos hv]
  · intro o edited hzero
    obtain ⟨it, hit, hq⟩ := hzero
    have hnot : ¬ (applyRowUpdates edited o.order_items).2 = true := by
      rw [applyRowUpdates_ok_iff]
      intro hall
      exact absurd hq (Nat.pos_iff_ne_zero.mp (hall it hit))
    simp [saveEditedQuantities, Bool.eq_false_iff.mpr hnot]
  · intro o edited hinv it hit
    have hrows := applyRowUpdates_preserves_inv edited o.order_items hinv
    by_cases hok : (applyRowUpdates edited o.order_items).2 = true
    · simp only [saveEditedQuantities, hok, if_true] at hit
      exact hrows it hit
    · simp only [saveEditedQuantities, hok, if_false] at hit
      exact hrows it hit
  · intro user cart street village pinCode now rand o' h hpos it hit
    cases user with
    | none => simp [checkoutSubmit] at h
    | some uid =>
      by_cases hv : jsTrim village = "" <;> by_cases hs : jsTrim street = "" <;>
        by_cases hp : jsTrim pinCode = "" <;>
          simp [checkoutSubmit, hv, hs, hp] at h
      subst h
      simp only [List.mem_map] at hit
      obtain ⟨l, hl, rfl⟩ := hit
      exact ⟨hpos l hl, by simp [snapshotLine]⟩

/-- C9 example edit requesting quantity zero for line `L1`. -/
def editedEx9 : String → Option Nat := fun s =>
  if s == "L1" then some 0 else none

/-- C9 witness: a negative edited value is clamped to zero, and saving a
zero quantity is rejected. -/
theorem order_item_invariant_witness :
    changeEditedQuantity (-5) = 0 ∧
    (saveEditedQuantities oEx1 editedEx9).2 = false :=
  ⟨order_item_invariant.1 (-5) (by decide),
    order_item_invariant.2.1 oEx1 editedEx9
      ⟨itemEx1, by simp [oEx1], by decide⟩⟩

/-- Every single cart operation preserves the cart invariant, provided any
added line has positive quantity (as the single `addToCart` call site
guarantees). -/
theorem cartInv_step (cart : List CartItem) (op : CartOp)
    (hinv : CartInv cart) (hop : addQtyPos op = true) :
    CartInv (applyCartOp cart op) := by
  obtain ⟨hnd, hpos⟩ := hinv
  cases op with
  | add n =>
    have hqn : 0 < n.quantity := by simpa [addQtyPos] using hop
    simp only [applyCartOp, addToCart]
    by_cases hex : cart.any (fun l => sameLine l n.item_id n.variant_id) = true
    · rw [if_pos hex]
      refine ⟨?_, ?_⟩
      · refine hnd.map _ (fun a b hab => ?_)
        by_cases ha : sameLine a n.item_id n.variant_id = true <;>
          by_cases hb : sameLine b n.item_id n.variant_id = true <;>
            simpa [ha, hb] using hab
      · intro l hl
        rw [List.mem_map] at hl
        obtain ⟨a, ha, rfl⟩ := hl
        by_cases h : sameLine a n.item_id n.variant_id = true
        · rw [if_pos h]
          have hpa := hpos a ha
          show 0 < a.quantity + n.quantity
          omega
        · rw [if_neg h]
          exact hpos a ha
    · rw [if_neg hex]
      refine ⟨?_, ?_⟩
      · rw [List.pairwise_append]
        refine ⟨hnd, List.pairwise_singleton _ _, ?_⟩
        intro a ha b hb
        rw [List.mem_singleton] at hb
        rw [hb]
        have hnot : ¬ sameLine a n.item_id n.variant_id = true := by
          intro hsx
          exact hex (List.any_eq_true.mpr ⟨a, ha, hsx⟩)
        simp only [sameLine, Bool.and_eq_true, beq_iff_eq, not_and] at hnot
        by_cases hi : a.item_id = n.item_id
        · exact Or.inr (hnot hi)
        · exact Or.inl hi
      · intro l hl
        rw [List.mem_append, List.mem_singleton] at hl
        rcases hl with h | h
        · exact hpos l h
        · rw [h]
          exact hqn
  | remove i v =>
    simp only [applyCartOp, removeFromCart]
    refine ⟨List.Pairwise.sublist (List.filter_sublist _) hnd, ?_⟩
    intro l hl
    exact hpos l (List.mem_of_mem_filter hl)
  | update i v q =>
    simp only [applyCartOp, updateQuantity]
    by_cases hq : q ≤ 0
    · rw [if_pos hq]
      simp only [removeFromCart]
      refine ⟨List.Pairwise.sublist (List.filter_sublist _) hnd, ?_⟩
      intro l hl
      exact hpos l (List.mem_of_mem_filter hl)
    · rw [if_neg hq]
      refine ⟨?_, ?_⟩
      · refine hnd.map _ (fun a b hab => ?_)
        by_cases ha : sameLine a i v = true <;>
          by_cases hb : sameLine b i v = true <;>
            simpa [ha, hb] using hab
      · intro l hl
        rw [List.mem_map] at hl
        obtain ⟨a, ha, rfl⟩ := hl
        by_cases h : sameLine a i v = true
        · rw [if_pos h]
          show 0 < q.toNat
          omega
        · rw [if_neg h]
          exact hpos a ha
  | clear =>
    exact ⟨List.Pairwise.nil, by simp [applyCartOp, clearCart]⟩

/-- Folding cart operations preserves the cart invariant. -/
theorem cartInv_foldl (ops : List CartOp) :
    ∀ c : List CartItem, (∀ op ∈ ops, addQtyPos op = true) → CartInv c →
      CartInv (ops.foldl applyCartOp c) := by
  induction ops with
  | nil =>
    intro c _ hc
    simpa using hc
  | cons op rest ih =>
    intro c h hc
    simp only [List.foldl_cons]
    exact ih _ (fun x hx => h x (List.mem_cons_of_mem _ hx))
      (cartInv_step c op hc (h op (List.mem_cons_self _ _)))

/-- C10: running any sequence of cart operations from the empty cart —
where every `addToCart` receives a positive quantity, as its single call
site guarantees — yields a cart in which no two lines share the
(item id, variant id) pair and every stored line has positive quantity.
In particular `addToCart` merges duplicates by summing quantities and
`updateQuantity` with a non-positive quantity removes the line. -/
theorem cart_no_duplicate_lines (ops : List CartOp)
    (h : ∀ op ∈ ops, addQtyPos op = true) :
    CartInv (runCart ops) :=
  cartInv_foldl ops [] h ⟨List.Pairwise.nil, by simp⟩

/-- C10 example line. -/
def lineEx : CartItem :=
  { item_id := "i1"
    variant_id := "v1"
    item_name := "Rice"
    quantity_unit := "1 kg"
    price := 50
    quantity := 1 }

/-- C10 example operation sequence: the same line added twice (a merge),
then a second variant added, then an update to quantity 0 (a removal). -/
def opsEx : List CartOp :=
  [CartOp.add lineEx,
    CartOp.add lineEx,
    CartOp.add { lineEx with variant_id := "v2", quantity_unit := "2 kg" },
    CartOp.update ("i1") ("v1") 0]

/-- C10 witness: the invariant holds after the concrete sequence. -/
theorem cart_no_duplicate_lines_witness : CartInv (runCart opsEx) :=
  cart_no_duplicate_lines opsEx (by decide)

/-- C5: on both cancellation paths — the owner's `updateOrderStatus(id,
'cancelled')` and the customer's cancel update — the write sets the status
to `cancelled` and always sets `delivery_boy_id` to `null`. -/
theorem cancel_clears_delivery_boy (o : Order) :
    ((updateOrderStatus o OrderStatus.cancelled).status = OrderStatus.cancelled ∧
      (updateOrderStatus o OrderStatus.cancelled).delivery_boy_id = none) ∧
    ((customerCancelOrder o).status = OrderStatus.cancelled ∧
      (customerCancelOrder o).delivery_boy_id = none) := by
  simp [updateOrderStatus, customerCancelOrder]

end JJShop
